import Mathlib

/-
Shallow embedding of the roverrtc package (src/src/init.go and src/src/map.go).

Go structs become Lean structures.  The external pion/webrtc handles (peer
connection, data channels) are modelled by the data this package observes
through them: the state returned by ConnectionState(), the result of Close(),
and the result of Send().  Go slices of ICE candidates live in an explicit
address-indexed store (CandStore) so that the copy/aliasing behaviour of
GetAllLocalCandidates can be stated.  Logging is write-only I/O and is not
modelled beyond the distinguished outcomes it accompanies.  Go sync mutexes
are not reentrant, so the RTCMap operations take a flag saying whether the
calling goroutine already holds the map's write lock; acquiring it again
yields the outcome MapResult.blocked.  Calling a method through a nil
peer-connection pointer is a runtime fault, modelled as Option.none for
IsConnected and MapResult.panicked inside RTCMap.Add.
-/

/-- Connection state of the external peer connection, as returned by the
external ConnectionState() query (webrtc.PeerConnectionState). -/
inductive PeerConnectionState
  | new
  | connecting
  | connected
  | disconnected
  | failed
  | closed
deriving DecidableEq

/-- Model of the external *webrtc.PeerConnection handle: the state it reports
on ConnectionState() and the error (if any) its Close() call returns. -/
structure PeerConnection where
  state : PeerConnectionState
  closeResult : Option String
deriving DecidableEq

/-- Model of the external *webrtc.DataChannel handle: the error (if any) its
Send() call returns. -/
structure DataChannel where
  sendResult : Option String
deriving DecidableEq

/-- Model of webrtc.ICECandidateInit (only its payload matters here). -/
structure ICECandidateInit where
  candidate : String
deriving DecidableEq

/-- Address-indexed store of candidate backing arrays, modelling Go slice
allocation: make/append-with-growth allocate a fresh address, writes go to an
existing address.  Reads take the most recent binding of an address. -/
structure CandStore where
  store : List (Nat × List ICECandidateInit)
  next : Nat
deriving DecidableEq

/-- Read the most recent binding of address a (helper for CandStore.read). -/
def CandStore.readList : List (Nat × List ICECandidateInit) → Nat → List ICECandidateInit
  | [], _ => []
  | p :: t, a => if p.1 = a then p.2 else CandStore.readList t a

/-- Content of the backing array at address a. -/
def CandStore.read (s : CandStore) (a : Nat) : List ICECandidateInit :=
  CandStore.readList s.store a

/-- Overwrite the backing array at address a (in-place slice mutation). -/
def CandStore.write (s : CandStore) (a : Nat) (v : List ICECandidateInit) : CandStore :=
  { s with store := (a, v) :: s.store }

/-- Allocate a fresh backing array holding v, returning its address. -/
def CandStore.alloc (s : CandStore) (v : List ICECandidateInit) : Nat × CandStore :=
  (s.next, { store := (s.next, v) :: s.store, next := s.next + 1 })

/-- The RTC struct of init.go.  Candidates holds the address of the slice's
backing array in the CandStore; CandidatesLock is a mutex and has no
state observable at this level. -/
structure RTC where
  Id : String
  Pc : Option PeerConnection
  Candidates : Nat
  MetaChannel : Option DataChannel
  ControlChannel : Option DataChannel
  FrameChannel : Option DataChannel
  TimestampOffset : Int
deriving DecidableEq

/-- NewRTC(id): allocates an empty candidate slice; Pc and the three data
channels are zero-valued (nil); TimestampOffset is 0. -/
def NewRTC (id : String) (s : CandStore) : RTC × CandStore :=
  let a := CandStore.alloc s []
  ({ Id := id
     Pc := none
     Candidates := a.1
     MetaChannel := none
     ControlChannel := none
     FrameChannel := none
     TimestampOffset := 0 }, a.2)

/-- AddLocalCandidate(candidate): r.Candidates = append(r.Candidates, candidate)
under the candidates lock.  Whether Go's append reuses the backing array or
reallocates depends on the slice capacity; that decision is the Boolean
input realloc (the appended content is the same either way). -/
def RTC.AddLocalCandidate (r : RTC) (s : CandStore) (c : ICECandidateInit)
    (realloc : Bool) : RTC × CandStore :=
  let cur := s.read r.Candidates
  if realloc then
    let a := CandStore.alloc s (cur ++ [c])
    ({ r with Candidates := a.1 }, a.2)
  else
    (r, s.write r.Candidates (cur ++ [c]))

/-- GetAllLocalCandidates(): allocates a fresh array of the same length and
copies the current candidates into it (make + copy under the lock); returns
the address of the fresh copy. -/
def RTC.GetAllLocalCandidates (r : RTC) (s : CandStore) : Nat × CandStore :=
  CandStore.alloc s (s.read r.Candidates)

/-- Observable outcome of RTC.Destroy(): either the nil-handle warning no-op,
or a completed teardown recording the (logged, ignored) result of the external
Close() call. -/
inductive DestroyEffect
  | nilWarning
  | closedPc (closeErr : Option String)
deriving DecidableEq

/-- Destroy(): if Pc is nil, log a warning and return (no-op).  Otherwise call
Pc.Close() (its error is logged but does not abort the teardown), replace the
candidate slice with a freshly allocated empty one, and set Pc to nil. -/
def RTC.Destroy (r : RTC) (s : CandStore) : RTC × CandStore × DestroyEffect :=
  match r.Pc with
  | none => (r, s, DestroyEffect.nilWarning)
  | some pcv =>
    let a := CandStore.alloc s []
    ({ r with Candidates := a.1, Pc := none }, a.2, DestroyEffect.closedPc pcv.closeResult)

/-- IsConnected(): returns r.Pc.ConnectionState() == connected with no nil
check.  When Pc is nil the external method call dereferences a nil pointer
(runtime fault), modelled as none. -/
def RTC.IsConnected (r : RTC) : Option Bool :=
  match r.Pc with
  | none => none
  | some pcv => some (decide (pcv.state = PeerConnectionState.connected))

/-- A protobuf message, modelled by the outcome of the external
proto.Marshal call on it. -/
structure ProtoMessage where
  marshalResult : Except String (List Nat)

/-- Outcome of a channel send wrapper: the nil-channel warning path (the Go
function returns a nil error), a marshal failure (returned to the caller), or
a forwarded channel Send() whose result is returned to the caller. -/
inductive SendOutcome
  | channelNotConfigured
  | marshalFailed (e : String)
  | sent (result : Option String)
deriving DecidableEq

/-- The Go error value each SendOutcome corresponds to (none = nil error). -/
def SendOutcome.toError : SendOutcome → Option String
  | SendOutcome.channelNotConfigured => none
  | SendOutcome.marshalFailed e => some e
  | SendOutcome.sent r => r

/-- SendMetaMessage(protobuffer): nil MetaChannel logs a warning and returns a
nil error; otherwise marshal (returning its error on failure) and forward the
bytes to MetaChannel.Send. -/
def RTC.SendMetaMessage (r : RTC) (msg : ProtoMessage) : SendOutcome :=
  match r.MetaChannel with
  | none => SendOutcome.channelNotConfigured
  | some ch =>
    match msg.marshalResult with
    | Except.error e => SendOutcome.marshalFailed e
    | Except.ok _ => SendOutcome.sent ch.sendResult

/-- SendFrameBytes(data): nil FrameChannel logs a warning and returns a nil
error; otherwise forward to FrameChannel.Send. -/
def RTC.SendFrameBytes (r : RTC) (_data : List Nat) : SendOutcome :=
  match r.FrameChannel with
  | none => SendOutcome.channelNotConfigured
  | some ch => SendOutcome.sent ch.sendResult

/-- SendControlBytes(data): nil ControlChannel logs a warning and returns a
nil error; otherwise forward to ControlChannel.Send. -/
def RTC.SendControlBytes (r : RTC) (_data : List Nat) : SendOutcome :=
  match r.ControlChannel with
  | none => SendOutcome.channelNotConfigured
  | some ch => SendOutcome.sent ch.sendResult

/-- The RTCMap struct of map.go: a Go map from id to *RTC (association list
with at most one binding per key) guarded by a sync.RWMutex. -/
structure RTCMap where
  rtcMap : List (String × RTC)
deriving DecidableEq

/-- Go map indexing m.rtcMap[id] (helper on the underlying list). -/
def RTCMap.lookupList : List (String × RTC) → String → Option RTC
  | [], _ => none
  | p :: t, id => if p.1 = id then some p.2 else RTCMap.lookupList t id

/-- Go map indexing m.rtcMap[id]; none models the nil pointer. -/
def RTCMap.lookup (m : RTCMap) (id : String) : Option RTC :=
  RTCMap.lookupList m.rtcMap id

/-- Go delete(m.rtcMap, id) (helper on the underlying list). -/
def RTCMap.eraseList : List (String × RTC) → String → List (String × RTC)
  | [], _ => []
  | p :: t, id => if p.1 = id then RTCMap.eraseList t id else p :: RTCMap.eraseList t id

/-- Go delete(m.rtcMap, id). -/
def RTCMap.erase (m : RTCMap) (id : String) : RTCMap :=
  { rtcMap := RTCMap.eraseList m.rtcMap id }

/-- Go map assignment m.rtcMap[id] = rtc. -/
def RTCMap.insert (m : RTCMap) (id : String) (rtc : RTC) : RTCMap :=
  { rtcMap := (id, rtc) :: RTCMap.eraseList m.rtcMap id }

/-- Go len(m.rtcMap). -/
def RTCMap.size (m : RTCMap) : Nat :=
  m.rtcMap.length

/-- The maxLength local of RTCMap.Add in map.go. -/
def maxLength : Nat := 10

/-- Outcome of an RTCMap operation: normal return with the updated map,
an error return carrying the map state at the moment of the return, a
goroutine blocked forever trying to acquire the already-held write lock
(Go sync mutexes are not reentrant), or a nil-pointer-dereference panic. -/
inductive MapResult
  | ok (post : RTCMap)
  | err (msg : String) (post : RTCMap)
  | blocked
  | panicked
deriving DecidableEq

/-- Remove(id): takes the write lock (blocking forever if the caller already
holds it), returns an error if no entry exists under id, otherwise deletes
the entry.  No Destroy() is called and no Connection object is modified,
which the embedding reflects by not touching any RTC value or the CandStore. -/
def RTCMap.Remove (locked : Bool) (m : RTCMap) (id : String) : MapResult :=
  if locked then MapResult.blocked
  else
    match m.lookup id with
    | none => MapResult.err ("Connection with id " ++ id ++ " does not exist") m
    | some _ => MapResult.ok (m.erase id)

/-- Add(id, rtc, isCar) of map.go: under the write lock, reject a non-car
insert at or above maxLength entries; if an entry exists under id, query its
peer handle's state (a nil handle panics), reject if the state is neither
closed nor disconnected, otherwise call m.Remove(id) — which re-acquires the
write lock the caller still holds — before inserting. -/
def RTCMap.Add (locked : Bool) (m : RTCMap) (id : String) (rtc : RTC)
    (isCar : Bool) : MapResult :=
  if locked then MapResult.blocked
  else if maxLength ≤ m.size ∧ isCar = false then
    MapResult.err "Maximum number of connections reached" m
  else
    match m.lookup id with
    | some existing =>
      match existing.Pc with
      | none => MapResult.panicked
      | some pcv =>
        if pcv.state ≠ PeerConnectionState.closed ∧
            pcv.state ≠ PeerConnectionState.disconnected then
          MapResult.err ("An active connection with id " ++ id ++ " already exists.") m
        else
          match RTCMap.Remove true m id with
          | MapResult.ok m2 => MapResult.ok (m2.insert id rtc)
          | MapResult.err e post => MapResult.err e post
          | MapResult.blocked => MapResult.blocked
          | MapResult.panicked => MapResult.panicked
    | none => MapResult.ok (m.insert id rtc)

/-
Concrete instances used by evaluation theorems and witnesses, and scenario
compositions used to state the snapshot claim.
-/

/-- The empty candidate store. -/
def store0 : CandStore := { store := [], next := 0 }

/-- A freshly created connection (as NewRTC builds it): nil handle, nil
channels, zero offset, empty candidate array at address 0. -/
def cRtc : RTC :=
  { Id := "c"
    Pc := none
    Candidates := 0
    MetaChannel := none
    ControlChannel := none
    FrameChannel := none
    TimestampOffset := 0 }

/-- A connection whose peer handle reports the closed state. -/
def staleClosedRtc : RTC :=
  { cRtc with Id := "a", Pc := some { state := PeerConnectionState.closed, closeResult := none } }

/-- A registry holding one entry, under "a", whose peer state is closed. -/
def staleMap : RTCMap := { rtcMap := [("a", staleClosedRtc)] }

/-- The empty registry. -/
def cEmpty : RTCMap := { rtcMap := [] }

/-- A registry holding maxLength (= 10) entries under ids "0".."9". -/
def cFull : RTCMap :=
  { rtcMap := [("0", cRtc), ("1", cRtc), ("2", cRtc), ("3", cRtc), ("4", cRtc),
               ("5", cRtc), ("6", cRtc), ("7", cRtc), ("8", cRtc), ("9", cRtc)] }

/-- A data channel whose Send() succeeds. -/
def cChan : DataChannel := { sendResult := none }

/-- A protobuf message that marshals successfully. -/
def cMsg : ProtoMessage := { marshalResult := Except.ok [] }

/-- A connected connection with all three data channels attached. -/
def cAttachedRtc : RTC :=
  { Id := "m"
    Pc := some { state := PeerConnectionState.connected, closeResult := none }
    Candidates := 0
    MetaChannel := some cChan
    ControlChannel := some cChan
    FrameChannel := some cChan
    TimestampOffset := 5 }

/-- A connected connection whose external Close() call fails. -/
def cCloseFailing : RTC :=
  { cRtc with
    Id := "d"
    Pc := some { state := PeerConnectionState.connected, closeResult := some "close failed" } }

/-- Scenario: create a connection and append candidates x then y (the two
Booleans say whether each append reallocates the backing array). -/
def c6Chain (id : String) (s : CandStore) (x y : ICECandidateInit)
    (b1 b2 : Bool) : RTC × CandStore :=
  let p0 := NewRTC id s
  let p1 := RTC.AddLocalCandidate p0.1 p0.2 x b1
  RTC.AddLocalCandidate p1.1 p1.2 y b2

/-- Scenario: the snapshot GetAllLocalCandidates takes after c6Chain
(address of the returned copy, and the store afterwards). -/
def c6Snap (id : String) (s : CandStore) (x y : ICECandidateInit)
    (b1 b2 : Bool) : Nat × CandStore :=
  RTC.GetAllLocalCandidates (c6Chain id s x y b1 b2).1 (c6Chain id s x y b1 b2).2

/-
Theorems settling the claims.
-/

/-- C3: IsConnected() on a freshly created Connection (nil peer handle)
dereferences the nil handle — a runtime fault (modelled none), neither false
nor a defined InvalidState error; with a non-nil handle it returns true iff
the queried state equals connected. -/
theorem c3_isConnected_nil_handle_faults :
    (NewRTC "c" store0).1.IsConnected = none ∧
    (∀ pcv : PeerConnection,
      RTC.IsConnected { cRtc with Pc := some pcv }
        = some (decide (pcv.state = PeerConnectionState.connected))) :=
  ⟨rfl, fun _ => rfl⟩

/-- C2 (evaluation at the failing input): with the registry mapping "a" to a
connection whose peer state is closed, Add("a", fresh, false) calls
m.Remove("a") while still holding the map's write lock and blocks forever
(Go sync mutexes are not reentrant) instead of succeeding. -/
theorem c2_add_over_closed_entry_blocks :
    RTCMap.Add false staleMap "a" cRtc false = MapResult.blocked := by
  decide

/-- C10: Destroy() leaves the Id, TimestampOffset and the three data-channel
fields exactly as they were; only the peer handle and the candidate list
change. -/
theorem c10_destroy_preserves_other_fields (r : RTC) (s : CandStore) :
    ((r.Destroy s).1.Id = r.Id) ∧
    ((r.Destroy s).1.TimestampOffset = r.TimestampOffset) ∧
    ((r.Destroy s).1.MetaChannel = r.MetaChannel) ∧
    ((r.Destroy s).1.ControlChannel = r.ControlChannel) ∧
    ((r.Destroy s).1.FrameChannel = r.FrameChannel) := by
  cases hr : r.Pc <;> simp [RTC.Destroy, hr]

/-- C4: Destroy() on a connection with a nil peer handle is a no-op that only
reports the warning (no error: Destroy returns nothing in Go), and a second
Destroy() in a row is always such a no-op — it does not close the handle
again. -/
theorem c4_destroy_idempotent (r : RTC) (s : CandStore) :
    (r.Pc = none → r.Destroy s = (r, s, DestroyEffect.nilWarning)) ∧
    (RTC.Destroy (r.Destroy s).1 (r.Destroy s).2.1
      = ((r.Destroy s).1, (r.Destroy s).2.1, DestroyEffect.nilWarning)) := by
  cases hr : r.Pc <;> simp [RTC.Destroy, hr]

/-- C4 witness: destroying a freshly created (nil-handle) connection is the
reported no-op. -/
theorem c4_destroy_idempotent_witness :
    RTC.Destroy cRtc store0 = (cRtc, store0, DestroyEffect.nilWarning) :=
  (c4_destroy_idempotent cRtc store0).1 rfl

/-- C5: Destroy() on a connection with a non-nil peer handle sets the handle
to nil and empties the candidate list, so a subsequent GetAllLocalCandidates
returns the empty sequence; the external Close() result (success or failure)
is only recorded in the reported effect and never aborts the teardown. -/
theorem c5_destroy_clears_state (r : RTC) (s : CandStore) (pcv : PeerConnection)
    (h : r.Pc = some pcv) :
    ((r.Destroy s).1.Pc = none) ∧
    ((r.Destroy s).2.1.read (r.Destroy s).1.Candidates = []) ∧
    ((RTC.GetAllLocalCandidates (r.Destroy s).1 (r.Destroy s).2.1).2.read
        (RTC.GetAllLocalCandidates (r.Destroy s).1 (r.Destroy s).2.1).1 = []) ∧
    ((r.Destroy s).2.2 = DestroyEffect.closedPc pcv.closeResult) := by
  simp [RTC.Destroy, h, RTC.GetAllLocalCandidates, CandStore.alloc, CandStore.read,
    CandStore.readList, CandStore.write]

/-- C5 witness: a connection whose Close() fails is still fully torn down and
the failure is only reported. -/
theorem c5_destroy_clears_state_witness :
    cCloseFailing.Pc
      = some { state := PeerConnectionState.connected, closeResult := some "close failed" } ∧
    (((cCloseFailing.Destroy store0).1.Pc = none) ∧
      ((cCloseFailing.Destroy store0).2.1.read (cCloseFailing.Destroy store0).1.Candidates = []) ∧
      ((RTC.GetAllLocalCandidates (cCloseFailing.Destroy store0).1
          (cCloseFailing.Destroy store0).2.1).2.read
        (RTC.GetAllLocalCandidates (cCloseFailing.Destroy store0).1
          (cCloseFailing.Destroy store0).2.1).1 = []) ∧
      ((cCloseFailing.Destroy store0).2.2
        = DestroyEffect.closedPc (some "close failed"))) :=
  ⟨rfl, c5_destroy_clears_state cCloseFailing store0 _ rfl⟩

/-- C8 counterexample: Destroy() does not touch the channel fields, so a send
on a destroyed connection whose meta channel was attached goes to the channel
handle — it does not take the nil-channel warning path the claim asserts. -/
theorem c8_destroyed_send_bypasses_nil_path :
    ((cAttachedRtc.Destroy store0).1.SendMetaMessage cMsg = SendOutcome.sent none) ∧
    ¬ ((cAttachedRtc.Destroy store0).1.SendMetaMessage cMsg
        = SendOutcome.channelNotConfigured) :=
  ⟨rfl, by decide⟩

/-- C8 amended: for each of the three send wrappers, a nil channel handle
makes the call return the benign warning outcome with a nil error; this
covers a destroyed connection only for channels that were never attached,
since Destroy() leaves channel handles untouched. -/
theorem c8_nil_channel_send_no_error (r : RTC) (msg : ProtoMessage)
    (d1 d2 : List Nat) :
    (r.MetaChannel = none →
      r.SendMetaMessage msg = SendOutcome.channelNotConfigured ∧
      (r.SendMetaMessage msg).toError = none) ∧
    (r.FrameChannel = none →
      r.SendFrameBytes d1 = SendOutcome.channelNotConfigured ∧
      (r.SendFrameBytes d1).toError = none) ∧
    (r.ControlChannel = none →
      r.SendControlBytes d2 = SendOutcome.channelNotConfigured ∧
      (r.SendControlBytes d2).toError = none) := by
  refine ⟨fun h => ?_, fun h => ?_, fun h => ?_⟩ <;>
    simp [RTC.SendMetaMessage, RTC.SendFrameBytes, RTC.SendControlBytes,
      SendOutcome.toError, h]

/-- C8 amended witness: a freshly created connection (all channels nil) sends
without error on every wrapper. -/
theorem c8_nil_channel_send_no_error_witness :
    (cRtc.MetaChannel = none ∧
      (cRtc.SendMetaMessage cMsg = SendOutcome.channelNotConfigured ∧
        (cRtc.SendMetaMessage cMsg).toError = none)) ∧
    (cRtc.FrameChannel = none ∧
      (cRtc.SendFrameBytes [] = SendOutcome.channelNotConfigured ∧
        (cRtc.SendFrameBytes []).toError = none)) ∧
    (cRtc.ControlChannel = none ∧
      (cRtc.SendControlBytes [] = SendOutcome.channelNotConfigured ∧
        (cRtc.SendControlBytes []).toError = none)) :=
  ⟨⟨rfl, (c8_nil_channel_send_no_error cRtc cMsg [] []).1 rfl⟩,
   ⟨rfl, (c8_nil_channel_send_no_error cRtc cMsg [] []).2.1 rfl⟩,
   ⟨rfl, (c8_nil_channel_send_no_error cRtc cMsg [] []).2.2 rfl⟩⟩

/-- Helper: Go map deletion removes every binding of the deleted key. -/
theorem lookupList_eraseList_self (l : List (String × RTC)) (id : String) :
    RTCMap.lookupList (RTCMap.eraseList l id) id = none := by
  induction l with
  | nil => rfl
  | cons p t ih =>
    by_cases hp : p.1 = id
    · simp [RTCMap.eraseList, hp, ih]
    · simp [RTCMap.eraseList, RTCMap.lookupList, hp, ih]

/-- Helper: Go map deletion leaves every other key's binding unchanged. -/
theorem lookupList_eraseList_of_ne (l : List (String × RTC)) (id id2 : String)
    (h : ¬ id2 = id) :
    RTCMap.lookupList (RTCMap.eraseList l id) id2 = RTCMap.lookupList l id2 := by
  induction l with
  | nil => rfl
  | cons p t ih =>
    by_cases hp : p.1 = id
    · have hq : ¬ p.1 = id2 := by
        rw [hp]
        exact fun k => h k.symm
      have hr : ¬ id = id2 := fun k => h k.symm
      simp [RTCMap.eraseList, RTCMap.lookupList, hp, hq, hr, ih]
    · by_cases hq : p.1 = id2
      · simp [RTCMap.eraseList, RTCMap.lookupList, hp, hq, h]
      · simp [RTCMap.eraseList, RTCMap.lookupList, hp, hq, ih]

/-- C7: Remove(id) fails with the does-not-exist error exactly when no entry
exists under id; on success it deletes that entry and nothing else, and it
never touches a Connection (no Destroy: the embedding of Remove neither reads
nor changes any RTC value or the candidate store). -/
theorem c7_remove_notfound_iff (m : RTCMap) (id : String) :
    (m.lookup id = none →
      RTCMap.Remove false m id
        = MapResult.err ("Connection with id " ++ id ++ " does not exist") m) ∧
    (∀ r, m.lookup id = some r →
      RTCMap.Remove false m id = MapResult.ok (m.erase id) ∧
      (m.erase id).lookup id = none ∧
      (∀ id2, ¬ id2 = id → (m.erase id).lookup id2 = m.lookup id2)) := by
  constructor
  · intro h
    simp [RTCMap.Remove, h]
  · intro r h
    refine ⟨by simp [RTCMap.Remove, h], ?_, ?_⟩
    · simpa [RTCMap.lookup, RTCMap.erase] using lookupList_eraseList_self m.rtcMap id
    · intro id2 h2
      simpa [RTCMap.lookup, RTCMap.erase] using
        lookupList_eraseList_of_ne m.rtcMap id id2 h2

/-- C7 witness: removing a missing id fails with the error; removing the one
entry under "a" succeeds, deletes it, and leaves another key ("zz") alone. -/
theorem c7_remove_notfound_iff_witness :
    (cEmpty.lookup "b" = none ∧
      RTCMap.Remove false cEmpty "b"
        = MapResult.err ("Connection with id " ++ "b" ++ " does not exist") cEmpty) ∧
    (staleMap.lookup "a" = some staleClosedRtc ∧
      RTCMap.Remove false staleMap "a" = MapResult.ok (staleMap.erase "a") ∧
      (staleMap.erase "a").lookup "a" = none ∧
      (staleMap.erase "a").lookup "zz" = staleMap.lookup "zz") :=
  ⟨⟨rfl, (c7_remove_notfound_iff cEmpty "b").1 rfl⟩,
   ⟨by decide,
    ((c7_remove_notfound_iff staleMap "a").2 staleClosedRtc (by decide)).1,
    ((c7_remove_notfound_iff staleMap "a").2 staleClosedRtc (by decide)).2.1,
    ((c7_remove_notfound_iff staleMap "a").2 staleClosedRtc (by decide)).2.2 "zz"
      (by decide)⟩⟩

/-- C1: with the registry at the maximum (10) entries, a non-privileged Add of
a fresh id fails with the capacity error and the map is unchanged; below the
maximum a non-privileged Add of a fresh id succeeds; a privileged (isCar) Add
of a fresh id succeeds regardless of the current entry count. -/
theorem c1_capacity_and_privilege (m : RTCMap) (id : String) (rtc : RTC) :
    (maxLength ≤ m.size → m.lookup id = none →
      RTCMap.Add false m id rtc false
        = MapResult.err "Maximum number of connections reached" m) ∧
    (m.size < maxLength → m.lookup id = none →
      RTCMap.Add false m id rtc false = MapResult.ok (m.insert id rtc)) ∧
    (m.lookup id = none →
      RTCMap.Add false m id rtc true = MapResult.ok (m.insert id rtc)) := by
  refine ⟨fun h1 _ => ?_, fun h1 h2 => ?_, fun h2 => ?_⟩
  · simp [RTCMap.Add, h1]
  · have hle : ¬ maxLength ≤ m.size := Nat.not_le.mpr h1
    simp [RTCMap.Add, hle, h2]
  · simp [RTCMap.Add, h2]

/-- C1 witness: on the concrete 10-entry registry the 11th non-privileged Add
fails with the capacity error, a non-privileged Add on the empty registry
succeeds, and a privileged Add on the full registry succeeds. -/
theorem c1_capacity_and_privilege_witness :
    (maxLength ≤ cFull.size ∧ cFull.lookup "x" = none ∧
      RTCMap.Add false cFull "x" cRtc false
        = MapResult.err "Maximum number of connections reached" cFull) ∧
    (cEmpty.size < maxLength ∧ cEmpty.lookup "x" = none ∧
      RTCMap.Add false cEmpty "x" cRtc false = MapResult.ok (cEmpty.insert "x" cRtc)) ∧
    (cFull.lookup "y" = none ∧
      RTCMap.Add false cFull "y" cRtc true = MapResult.ok (cFull.insert "y" cRtc)) :=
  ⟨⟨by decide, by decide,
    (c1_capacity_and_privilege cFull "x" cRtc).1 (by decide) (by decide)⟩,
   ⟨by decide, by decide,
    (c1_capacity_and_privilege cEmpty "x" cRtc).2.1 (by decide) (by decide)⟩,
   ⟨by decide,
    (c1_capacity_and_privilege cFull "y" cRtc).2.2 (by decide)⟩⟩

/-- C9: whenever Add returns an error (capacity reached or still-active
duplicate id), the registry state carried by that return is exactly the input
state — no entry was inserted, removed or replaced by the failing call. -/
theorem c9_add_error_leaves_map_unchanged (locked : Bool) (m : RTCMap)
    (id : String) (rtc : RTC) (isCar : Bool) (e : String) (post : RTCMap)
    (h : RTCMap.Add locked m id rtc isCar = MapResult.err e post) :
    post = m := by
  by_cases hl : locked = true
  · simp [RTCMap.Add, hl] at h
  · by_cases hc : maxLength ≤ m.size ∧ isCar = false
    · simp [RTCMap.Add, hl, hc] at h
      exact h.2.symm
    · cases hm : m.lookup id with
      | none => simp [RTCMap.Add, hl, hc, hm] at h
      | some existing =>
        cases hp : existing.Pc with
        | none => simp [RTCMap.Add, hl, hc, hm, hp] at h
        | some pcv =>
          by_cases ha : pcv.state ≠ PeerConnectionState.closed ∧
              pcv.state ≠ PeerConnectionState.disconnected
          · simp [RTCMap.Add, hl, hc, hm, hp, ha] at h
            exact h.2.symm
          · simp [RTCMap.Add, RTCMap.Remove, hl, hc, hm, hp, ha] at h

/-- C9 witness: the failing capacity Add on the full registry carries back the
unchanged registry. -/
theorem c9_add_error_leaves_map_unchanged_witness :
    RTCMap.Add false cFull "x" cRtc false
      = MapResult.err "Maximum number of connections reached" cFull ∧
    cFull = cFull :=
  ⟨by decide,
   c9_add_error_leaves_map_unchanged false cFull "x" cRtc false
     "Maximum number of connections reached" cFull (by decide)⟩

/-- C6: after appending x then y to a fresh connection, the snapshot returned
by GetAllLocalCandidates holds exactly the two-element sequence with x and y;
the copy's backing array is distinct from the live list's, a later
AddLocalCandidate of z leaves the copy's content unchanged, and overwriting
the copy's array with any list leaves the live list unchanged — whatever
reallocation choices Go's append makes. -/
theorem c6_snapshot_independent (id : String) (s : CandStore)
    (x y z : ICECandidateInit) (b1 b2 b3 : Bool) (l : List ICECandidateInit) :
    ((c6Snap id s x y b1 b2).2.read (c6Snap id s x y b1 b2).1 = [x, y]) ∧
    (¬ (c6Snap id s x y b1 b2).1 = (c6Chain id s x y b1 b2).1.Candidates) ∧
    ((RTC.AddLocalCandidate (c6Chain id s x y b1 b2).1 (c6Snap id s x y b1 b2).2
        z b3).2.read (c6Snap id s x y b1 b2).1 = [x, y]) ∧
    (((c6Snap id s x y b1 b2).2.write (c6Snap id s x y b1 b2).1 l).read
        (c6Chain id s x y b1 b2).1.Candidates = [x, y]) ∧
    ((c6Snap id s x y b1 b2).2.read (c6Chain id s x y b1 b2).1.Candidates
        = [x, y]) := by
  have ha : ¬ (s.next + 1 = s.next) := by omega
  have hb : ¬ (s.next = s.next + 1) := by omega
  have hc : ¬ (s.next + 1 + 1 = s.next + 1) := by omega
  have hd : ¬ (s.next + 1 = s.next + 1 + 1) := by omega
  have he : ¬ (s.next + 1 + 1 + 1 = s.next + 1 + 1) := by omega
  have hf : ¬ (s.next + 1 + 1 = s.next + 1 + 1 + 1) := by omega
  have hg : ¬ (s.next + 1 + 1 + 1 + 1 = s.next + 1 + 1 + 1) := by omega
  have hh : ¬ (s.next + 1 + 1 = s.next) := by omega
  have hi : ¬ (s.next = s.next + 1 + 1) := by omega
  have hj : ¬ (s.next + 1 + 1 + 1 = s.next + 1) := by omega
  have hk : ¬ (s.next + 1 = s.next + 1 + 1 + 1) := by omega
  cases b1 <;> cases b2 <;> cases b3 <;>
    simp [c6Chain, c6Snap, NewRTC, RTC.AddLocalCandidate, RTC.GetAllLocalCandidates,
      CandStore.read, CandStore.readList, CandStore.write, CandStore.alloc,
      ha, hb, hc, hd, he, hf, hg, hh, hi, hj, hk]
